import Mathlib

/-!
Formal model of the rat_scout_AGTS4Mini watchface and its phone-side companion
service. The definitions below are shallow embeddings of the JavaScript in
src/watchface/index.js and src/app-side/index.js: byte buffers become lists of
natural numbers below 256, JS numbers become Int or Rat, nullable values become
Option, and every function that the original wraps in try/catch is modelled as a
total function whose throwing steps are explicit outcomes of the environment.
-/

namespace RatScout

/-! ## Wire framing (watchface/index.js, `_u16`/`_u32`/`_r32`, `_buildPkt`,
`_buildInner`, and the inbound parse inside `setupMessaging`) -/

/-- Little-endian 16-bit write, `_u16` in watchface/index.js. -/
def u16le (v : Nat) : List Nat := [v % 256, v / 256 % 256]

/-- Little-endian 32-bit write, `_u32` in watchface/index.js. -/
def u32le (v : Nat) : List Nat :=
  [v % 256, v / 256 % 256, v / 65536 % 256, v / 16777216 % 256]

/-- Byte read from a buffer; Uint8Array reads in the source only touch indices
that exist, the default 0 mirrors that no out-of-range read is exercised. -/
def byteAt (b : List Nat) (o : Nat) : Nat := b.getD o 0

/-- `arr[o] | (arr[o+1] << 8)`, the 16-bit read used for outerType and port2. -/
def r16 (b : List Nat) (o : Nat) : Nat := byteAt b o + byteAt b (o + 1) * 256

/-- `_r32` in watchface/index.js: unsigned little-endian 32-bit read. -/
def r32 (b : List Nat) (o : Nat) : Nat :=
  byteAt b o + byteAt b (o + 1) * 256 + byteAt b (o + 2) * 65536 +
    byteAt b (o + 3) * 16777216

/-- `_buildPkt(outerType, port2, appId, payBytes)`: 16-byte outer header
(flag 0x01, version 0x01, outerType, constant 20, port2, appId, zero extra)
followed by the payload bytes. -/
def buildPkt (outerType port2 appId : Nat) (payBytes : List Nat) : List Nat :=
  [1, 1] ++ u16le outerType ++ u16le 20 ++ u16le port2 ++ u32le appId ++
    u32le 0 ++ payBytes

/-- `_buildInner(traceId, totalLen, dataBytes, payloadType)`: the 66-byte inner
header followed by the data bytes. `spanId` is the value of the module counter
after its increment and `ts` is the JS `(Date.now() % 10000000) | 0` value; both
are passed in because the source reads them from ambient state. -/
def buildInner (traceId totalLen : Nat) (dataBytes : List Nat)
    (payloadType spanId ts : Nat) : List Nat :=
  u32le traceId ++ u32le 0 ++ u32le spanId ++ u32le 1 ++ u32le totalLen ++
    u32le dataBytes.length ++ [payloadType % 256, 1] ++ u32le ts ++
    u32le 0 ++ u32le 0 ++ u32le 0 ++ u32le 0 ++ u32le 0 ++ u32le 0 ++ u32le 0 ++
    u32le 0 ++ u32le 0 ++ dataBytes

/-- The fields the inbound handler in `setupMessaging` extracts from a data
packet before decoding the JSON payload. -/
structure ParsedMsg where
  outerType : Nat
  port2 : Nat
  traceId : Nat
  totalLen : Nat
  payLen : Nat
  payType : Nat
  payload : List Nat
deriving Repr, DecidableEq

/-- The envelope-level part of the `hmBle.createConnect` callback in
watchface/index.js: buffers shorter than 16 bytes are dropped, outerType and
port2 are read from the outer header, and for a data packet (outerType 0x4 or
0x5 with more than 82 bytes) the correlation fields and the payload slice are
extracted. The handshake branch (outerType 0x1) carries no data fields and is
reported as `none` here. -/
def parseInbound (arr : List Nat) : Option ParsedMsg :=
  if arr.length < 16 then none
  else
    let outerType := r16 arr 2
    let port2 := r16 arr 4
    if (outerType = 4 ∨ outerType = 5) ∧ arr.length > 82 then
      let payLen := r32 arr 32
      some { outerType := outerType, port2 := port2, traceId := r32 arr 16,
             totalLen := r32 arr 28, payLen := payLen,
             payType := byteAt arr 36, payload := (arr.drop 82).take payLen }
    else none

/-- UTF-8 bytes of the JSON text used as the concrete payload in the wire
round-trip check. -/
def c1Payload : List Nat := [123, 34, 97, 34, 58, 49, 125]

/-! ## Watch display state and the remote-data applicators
(watchface/index.js, `applyGlucose` .. `applyAll`) -/

/-- JS `x || d` for an optional string: absence and the empty string are falsy. -/
def jsOrStr (x : Option String) (d : String) : String :=
  match x with
  | some s => if s = "" then d else s
  | none => d

/-- Digit run to its decimal value. -/
def digitsToNat (cs : List Char) : Nat :=
  cs.foldl (fun a c => a * 10 + (c.toNat - 48)) 0

/-- Simplified JS `parseFloat`; `none` models NaN. An optional sign, integer
digits and an optional fraction are handled, which covers every numeric string
this code base produces or configures; exponents and leading whitespace are not
modelled. The decimal value i.f with n fraction digits is assembled as the
rational (i * 10^n + f) / 10^n. -/
def jsParseFloat (s : String) : Option Rat :=
  let step : Bool × List Char :=
    match s.data with
    | '-' :: rest => (true, rest)
    | '+' :: rest => (false, rest)
    | cs => (false, cs)
  let intPart := step.2.takeWhile Char.isDigit
  let rest := step.2.dropWhile Char.isDigit
  let fracPart :=
    match rest with
    | '.' :: r => r.takeWhile Char.isDigit
    | _ => []
  if intPart.isEmpty ∧ fracPart.isEmpty then none
  else
    let mag : Rat := mkRat
      (digitsToNat intPart * 10 ^ fracPart.length + digitsToNat fracPart)
      (10 ^ fracPart.length)
    some (if step.1 then -mag else mag)

def C_WHITE : Nat := 0xFFFFFF
def C_RED : Nat := 0xFF3030
def C_ORANGE : Nat := 0xFF8C00
def C_GREEN : Nat := 0x44FF44
def C_GRAY : Nat := 0x888888

/-- `glucoseColor` in watchface/index.js. -/
def glucoseColor (s : String) : Nat :=
  match jsParseFloat s with
  | none => C_GRAY
  | some v => if v > 180 then C_ORANGE else if v < 70 then C_RED else C_GREEN

/-- `MOON_IMGS` in watchface/index.js. -/
def MOON_IMGS : List String :=
  ["images/newmoon.png", "images/waxingcrescentmoon.png",
   "images/firstquartermoon.png", "images/waxinggibbousmoon.png",
   "images/fullmoon.png", "images/waninggibbousmoon.png",
   "images/thirdquartermoon.png", "images/waningcrescentmoon.png"]

/-- `BAG_IMGS` in watchface/index.js, as a key lookup. -/
def BAG_IMGS (k : String) : Option String :=
  if k = "O" then some "images/organicbag.png"
  else if k = "G" then some "images/greybag.png"
  else if k = "B" then some "images/blackbag.png"
  else none

/-- The watch display fields written by the remote-data applicators: the text
and color of each widget the `apply*` functions touch. -/
structure Display where
  glucose : String
  glucoseCol : Nat
  delta : String
  timeDelta : String
  temp : String
  wind : String
  sunTime : String
  moonTime : String
  moonPhaseSrc : String
  garbageSrc : String
  garbageVisible : Bool
deriving Repr, DecidableEq

/-- The glucose section of an inbound message; every field may be absent. -/
structure GlucoseMsg where
  value : Option String
  delta : Option String
  timeDelta : Option Int
deriving Repr, DecidableEq

/-- The weather section of an inbound message. -/
structure WeatherMsg where
  temp : Option Int
  tempUnit : Option String
  wind : Option Int
  windUnit : Option String
deriving Repr, DecidableEq

/-- The astronomy section of an inbound message. -/
structure AstroMsg where
  sunTime : Option String
  moonTime : Option String
  moonPhase : Option Nat
deriving Repr, DecidableEq

/-- The settings section of an inbound message. -/
structure SettingsMsg where
  garbageBag : Option String
deriving Repr, DecidableEq

/-- A full or partial snapshot bundle, the shape `applyAll` consumes. -/
structure AllMsg where
  glucose : Option GlucoseMsg
  weather : Option WeatherMsg
  astronomy : Option AstroMsg
  settings : Option SettingsMsg
deriving Repr, DecidableEq

/-- `applyGlucose` in watchface/index.js: called only when the section is
present; `String(msg.value || _)` falls back to the placeholder when value is
absent or empty, delta falls back to the empty string, and a zero or absent
timeDelta renders as the empty string. -/
def applyGlucose (d : Display) (m : Option GlucoseMsg) : Display :=
  match m with
  | none => d
  | some msg =>
    let val := jsOrStr msg.value "---"
    { d with glucose := val, glucoseCol := glucoseColor val,
             delta := jsOrStr msg.delta "",
             timeDelta :=
               match msg.timeDelta with
               | some n => if n ≠ 0 then toString n ++ "m" else ""
               | none => "" }

/-- `applyWeather` in watchface/index.js: each field is written only when it is
present (`!== undefined` guards). -/
def applyWeather (d : Display) (m : Option WeatherMsg) : Display :=
  match m with
  | none => d
  | some msg =>
    let d1 :=
      match msg.temp with
      | some t => { d with temp := toString t ++ jsOrStr msg.tempUnit "" }
      | none => d
    match msg.wind with
    | some w => { d1 with wind := toString w ++ jsOrStr msg.windUnit "" }
    | none => d1

/-- `applyAstronomy` in watchface/index.js: truthiness guards on the two time
strings, a typeof-number guard on the phase index, and an out-of-range phase
index falls back to the first image. -/
def applyAstronomy (d : Display) (m : Option AstroMsg) : Display :=
  match m with
  | none => d
  | some msg =>
    let d1 :=
      match msg.sunTime with
      | some s => if s ≠ "" then { d with sunTime := s } else d
      | none => d
    let d2 :=
      match msg.moonTime with
      | some s => if s ≠ "" then { d1 with moonTime := s } else d1
      | none => d1
    match msg.moonPhase with
    | some p => { d2 with moonPhaseSrc := MOON_IMGS.getD p (MOON_IMGS.getD 0 "") }
    | none => d2

/-- `applySettings` in watchface/index.js: a known bag code shows its icon,
anything else hides the icon. -/
def applySettings (d : Display) (m : Option SettingsMsg) : Display :=
  match m with
  | none => d
  | some msg =>
    match msg.garbageBag with
    | some k =>
      match BAG_IMGS k with
      | some src => { d with garbageSrc := src, garbageVisible := true }
      | none => { d with garbageVisible := false }
    | none => { d with garbageVisible := false }

/-- `applyAll` in watchface/index.js: each section is applied only when
present. -/
def applyAll (d : Display) (m : AllMsg) : Display :=
  applySettings
    (applyAstronomy (applyWeather (applyGlucose d m.glucose) m.weather)
      m.astronomy)
    m.settings

/-! ## Watch inbound message dispatch (watchface/index.js, `setupMessaging`) -/

/-- The JSON-decoded message of a data packet. A JS object serves several duck
typed roles at once, so the views the handler can take of one object are listed
as separate fields: `data` is the `msg.data` key holding a snapshot bundle, and
the `self*` fields are the views of the message object itself used by the push
branch (`applyAll(msg)`, `applyGlucose(msg)`, and so on). -/
structure InMsg where
  type : Option String
  data : Option AllMsg
  self : AllMsg
  selfGlucose : GlucoseMsg
  selfWeather : WeatherMsg
  selfAstro : AstroMsg
  selfSettings : SettingsMsg
deriving Repr, DecidableEq

/-- Watch-side messaging state touched by the dispatch: the pending trace id
table (a JS object keyed by trace id) and the display. -/
structure WatchState where
  pending : List Nat
  disp : Display
deriving Repr, DecidableEq

/-- The message-dispatch part of the inbound handler in `setupMessaging`,
running after a data packet was parsed and its payload JSON-decoded.
`parsed = none` models a JSON.parse throw, which the surrounding catch turns
into doing nothing. A payload-type 0x02 response is applied (and its trace id
deleted) only when the trace id is pending; a payload-type 0x03 push is applied
by its `type` tag; everything else is ignored. -/
def onDataPacket (st : WatchState) (payType traceId : Nat)
    (parsed : Option InMsg) : WatchState :=
  match parsed with
  | none => st
  | some msg =>
    if payType = 2 ∧ st.pending.contains traceId then
      { pending := st.pending.filter (fun t => t ≠ traceId),
        disp :=
          match msg.data with
          | some d => applyAll st.disp d
          | none => st.disp }
    else if payType = 3 then
      let d0 := st.disp
      let d1 := if msg.type = some "all" then applyAll d0 msg.self else d0
      let d2 := if msg.type = some "glucose" then
        applyGlucose d1 (some msg.selfGlucose) else d1
      let d3 := if msg.type = some "weather" then
        applyWeather d2 (some msg.selfWeather) else d2
      let d4 := if msg.type = some "astronomy" then
        applyAstronomy d3 (some msg.selfAstro) else d3
      let d5 := if msg.type = some "settings" then
        applySettings d4 (some msg.selfSettings) else d4
      { st with disp := d5 }
    else st

/-! ## App-side service helpers (app-side/index.js) -/

/-- JS string `<` on two lists of UTF-16 code units: lexicographic by code
unit. All strings compared in this code base are ASCII "HH:MM" clock times. -/
def jsStrLtL : List Char → List Char → Bool
  | [], [] => false
  | [], _ :: _ => true
  | _ :: _, [] => false
  | a :: as, b :: bs =>
    if a.toNat < b.toNat then true
    else if b.toNat < a.toNat then false
    else jsStrLtL as bs

/-- JS string `<`. -/
def jsStrLt (a b : String) : Bool := jsStrLtL a.data b.data

/-- Does `l` contain `pat` as a contiguous segment. -/
def hasSubAux (pat : List Char) : List Char → Bool
  | [] => pat.isEmpty
  | c :: rest => if pat.isPrefixOf (c :: rest) then true else hasSubAux pat rest

/-- JS `String.prototype.includes`. -/
def jsIncludes (s pat : String) : Bool := hasSubAux pat.data s.data

/-- JS `String.prototype.toLowerCase` on the ASCII labels this code base
compares: per-character lowering. -/
def jsToLower (s : String) : String := String.mk (s.data.map Char.toLower)

/-- `parseMoonPhase` in app-side/index.js: substring match on the lowercased
phase label, in priority order, defaulting to 0. -/
def parseMoonPhase (str : String) : Nat :=
  if jsIncludes str "new" then 0
  else if jsIncludes str "waxing crescent" then 1
  else if jsIncludes str "first quarter" then 2
  else if jsIncludes str "waxing gibbous" then 3
  else if jsIncludes str "full" then 4
  else if jsIncludes str "waning gibbous" then 5
  else if jsIncludes str "third quarter" ∨ jsIncludes str "last quarter" then 6
  else if jsIncludes str "waning crescent" then 7
  else 0

/-- JS `Math.round`: floor of x + 1/2, also for negative x. -/
def jsRound (q : Rat) : Int := Rat.floor (q + 1 / 2)

/-- Rounding to the nearest integer with ties away from zero, the behaviour of
`Number.prototype.toFixed` on exactly representable inputs. The binary double
rounding of JS can differ on ties; no claim exercises such a tie. -/
def roundTiesAway (q : Rat) : Int :=
  if q < 0 then -Rat.floor (-q + 1 / 2) else Rat.floor (q + 1 / 2)

/-- JS truthiness of an optional numeric value: null, undefined and 0 are
falsy (a NaN coordinate is modelled as `none`). -/
def jsFalsyNum (x : Option Rat) : Bool :=
  match x with
  | none => true
  | some v => v = 0

/-- Outcome of one HTTP call in the environment: the fetch or body read throws,
or a response arrives with a status and (for the 200 path) a body whose JSON
either parses to `α` or throws (`none`). -/
inductive HttpOutcome (α : Type) where
  | netThrow : HttpOutcome α
  | resp (status : Nat) (body : Option α) : HttpOutcome α
deriving Repr, DecidableEq

/-! ## Weather source (app-side/index.js, `fetchWeather`) -/

/-- The `data.weather[0]` object of an OpenWeatherMap response. -/
structure WeatherCond where
  main : String
  id : Int
deriving Repr, DecidableEq

/-- The parts of an OpenWeatherMap JSON body that `fetchWeather` reads. A body
whose `main` or `wind` member is missing throws on access and is modelled as a
parse failure instead. -/
structure WeatherData where
  mainTemp : Rat
  windSpeed : Rat
  weather0 : Option WeatherCond
deriving Repr, DecidableEq

/-- The value `fetchWeather` produces and caches. -/
structure WeatherResult where
  temp : Int
  windSpeed : Int
  windUnit : String
  description : String
  hasRain : Bool
deriving Repr, DecidableEq

/-- Settings and upstream world of one `fetchWeather` invocation. -/
structure WeatherEnv where
  owmApiKey : String
  weatherUnits : String
  http : HttpOutcome WeatherData
deriving Repr, DecidableEq

/-- The module-level weather cache. -/
structure WeatherState where
  cachedWeather : Option WeatherResult
  lastWeatherFetch : Int
deriving Repr, DecidableEq

def WEATHER_CACHE_MS : Int := 30 * 60 * 1000

/-- `fetchWeather(lat, lon)` in app-side/index.js. Returns the result, the new
cache state, and whether the upstream endpoint was contacted. A fresh cache
entry short-circuits everything; a missing API key or a falsy coordinate
returns null before any network call; a throwing call, a non-200 status or a
JSON parse throw all yield null via the catch. -/
def fetchWeather (env : WeatherEnv) (st : WeatherState) (now : Int)
    (lat lon : Option Rat) : Option WeatherResult × WeatherState × Bool :=
  if st.cachedWeather.isSome ∧ now - st.lastWeatherFetch < WEATHER_CACHE_MS then
    (st.cachedWeather, st, false)
  else if env.owmApiKey = "" then (none, st, false)
  else if jsFalsyNum lat ∨ jsFalsyNum lon then (none, st, false)
  else
    match env.http with
    | .netThrow => (none, st, true)
    | .resp status body =>
      if status ≠ 200 then (none, st, true)
      else
        match body with
        | none => (none, st, true)
        | some data =>
          let metric := env.weatherUnits = "metric"
          let r : WeatherResult :=
            { temp := jsRound data.mainTemp,
              windSpeed := jsRound data.windSpeed,
              windUnit := if metric then "m/s" else "mph",
              description :=
                match data.weather0 with
                | some w => w.main
                | none => "",
              hasRain :=
                match data.weather0 with
                | some w => decide (200 ≤ w.id ∧ w.id < 700)
                | none => false }
          (some r, { cachedWeather := some r, lastWeatherFetch := now }, true)

/-! ## Astronomy source (app-side/index.js, `fetchAstronomy`) -/

/-- The parts of an ipgeolocation astronomy body that `fetchAstronomy` reads.
The four event times are "HH:MM" strings per the upstream contract; the phase
label can be absent (`data.moon_phase || empty`). -/
structure AstroData where
  sunrise : String
  sunset : String
  moonrise : String
  moonset : String
  moonPhaseLabel : Option String
deriving Repr, DecidableEq

/-- The value `fetchAstronomy` produces and caches. -/
structure AstroResult where
  sunTime : String
  sunIsRising : Bool
  moonTime : String
  moonIsRising : Bool
  moonPhase : Nat
deriving Repr, DecidableEq

/-- Settings, upstream world and wall clock of one `fetchAstronomy` call;
`nowStr` is the "HH:MM" slice of `new Date().toTimeString()`. -/
structure AstroEnv where
  ipgeoApiKey : String
  http : HttpOutcome AstroData
  nowStr : String
deriving Repr, DecidableEq

/-- The module-level astronomy cache. -/
structure AstroState where
  cachedAstro : Option AstroResult
  lastAstroFetch : Int
deriving Repr, DecidableEq

def ASTRO_CACHE_MS : Int := 24 * 60 * 60 * 1000

/-- `fetchAstronomy(lat, lon)` in app-side/index.js. The moon rule is the
asymmetric one of the source: on a normal day (moonrise lexically before
moonset) the moon is rising while the time is before moonrise; on an inverted
day it is rising only while the time is both before moonrise and after
moonset. -/
def fetchAstronomy (env : AstroEnv) (st : AstroState) (now : Int)
    (lat lon : Option Rat) : Option AstroResult × AstroState × Bool :=
  if st.cachedAstro.isSome ∧ now - st.lastAstroFetch < ASTRO_CACHE_MS then
    (st.cachedAstro, st, false)
  else if env.ipgeoApiKey = "" ∨ jsFalsyNum lat ∨ jsFalsyNum lon then
    (none, st, false)
  else
    match env.http with
    | .netThrow => (none, st, true)
    | .resp status body =>
      if status ≠ 200 then (none, st, true)
      else
        match body with
        | none => (none, st, true)
        | some data =>
          let sunIsRising := jsStrLt env.nowStr data.sunset
          let moonIsRising :=
            if jsStrLt data.moonrise data.moonset then
              jsStrLt env.nowStr data.moonrise
            else
              jsStrLt env.nowStr data.moonrise && jsStrLt data.moonset env.nowStr
          let r : AstroResult :=
            { sunTime := if sunIsRising then data.sunrise else data.sunset,
              sunIsRising := sunIsRising,
              moonTime := if moonIsRising then data.moonrise else data.moonset,
              moonIsRising := moonIsRising,
              moonPhase :=
                parseMoonPhase (jsToLower (data.moonPhaseLabel.getD "")) }
          (some r, { cachedAstro := some r, lastAstroFetch := now }, true)

/-- The moon-rising rule exactly as the specification words it, for comparison
with the source embedding: on a lexically normal day the moon is rising when
the current time is before moonrise; otherwise it is rising when the current
time is before moonrise and after moonset. -/
def moonIsRisingSpec (moonrise moonset nowStr : String) : Bool :=
  if jsStrLt moonrise moonset then jsStrLt nowStr moonrise
  else jsStrLt nowStr moonrise && jsStrLt moonset nowStr

/-! ## Location (app-side/index.js, `getLocation`) -/

/-- The module-level cached coordinates. -/
structure LocState where
  cachedLat : Option Rat
  cachedLon : Option Rat
deriving Repr, DecidableEq

/-- `getLocation()` in app-side/index.js over the raw latitude and longitude
setting strings (default empty): both must parse to update the cached pair,
and the cached pair is what is returned. -/
def getLocation (latStr lonStr : String) (st : LocState) :
    (Option Rat × Option Rat) × LocState :=
  match jsParseFloat latStr, jsParseFloat lonStr with
  | some la, some lo =>
    ((some la, some lo), { cachedLat := some la, cachedLon := some lo })
  | _, _ => ((st.cachedLat, st.cachedLon), st)

/-! ## Glucose source (app-side/index.js, `dexcomLogin` and `fetchGlucose`) -/

/-- One Dexcom reading as `fetchGlucose` reads it: the mg/dL `Value`, the
`Trend` tag, and the WCF `WT` timestamp. `WT` is `none` when the field is
missing or fails to parse; both cases leave the timestamp at the current time
(the one via the inner catch, the other via the isNaN guard). -/
structure Reading where
  Value : Int
  Trend : Option String
  WT : Option Int
deriving Repr, DecidableEq

/-- The value `fetchGlucose` produces and caches. -/
structure GlucoseResult where
  value : String
  delta : String
  trend : Option String
  timestamp : Int
deriving Repr, DecidableEq

/-- Outcome of one call to the ReadPublisherLatestGlucoseValues endpoint. -/
abbrev DataOutcome := HttpOutcome (List Reading)

/-- Settings and upstream world of a glucose fetch. `login` is the outcome of
a `dexcomLogin` call (`none` when the login request throws or its status is not
200, which `dexcomLogin` turns into a throw); `dataCalls k` is the outcome of
the k-th data-endpoint call of this invocation. -/
structure GlucoseEnv where
  username : String
  password : String
  units : String
  login : Option String
  dataCalls : Nat → DataOutcome

/-- The module-level glucose session and cache. -/
structure GlucoseState where
  sessionId : Option String
  cachedGlucose : Option GlucoseResult
  lastGlucoseFetch : Int
deriving Repr, DecidableEq

def GLUCOSE_CACHE_MS : Int := 5 * 60 * 1000

/-- Sign prefix and value, `formatDelta` on the integral mg/dL delta: parseFloat
of an integer is itself and Math.round is then the identity. -/
def formatDeltaInt (n : Int) : String :=
  (if n > 0 then "+" else "") ++ toString n

/-- One decimal place string of a number of tenths, the shape every
`toFixed(1)` result in `fetchGlucose` has. -/
def tenthsToStr (k : Int) : String :=
  (if k < 0 then "-" else "") ++ toString (k.natAbs / 10) ++ "." ++
    toString (k.natAbs % 10)

/-- mg/dL to tenths of mmol/L: `(v / 18.0).toFixed(1)` keeps the value
round(v * 10 / 18) tenths. -/
def mmolTenths (v : Int) : Int := roundTiesAway ((v : Rat) * 10 / 18)

/-- The successful tail of `fetchGlucose`: display value and delta according to
the configured units, the `Trend` passthrough, and a timestamp that is the WCF
time when available and the current time otherwise. For the mmol branch the
string round trips through parseFloat and toFixed are exact on tenths, so the
delta is the difference of the two rounded tenths counts. -/
def glucoseSuccess (units : String) (now : Int) (latest : Reading)
    (prev : Option Reading) : GlucoseResult :=
  let pair : String × String :=
    if units = "mmol" then
      (tenthsToStr (mmolTenths latest.Value),
       match prev with
       | some p =>
         (if mmolTenths latest.Value - mmolTenths p.Value > 0 then "+" else "")
           ++ tenthsToStr (mmolTenths latest.Value - mmolTenths p.Value)
       | none => "")
    else
      (toString latest.Value,
       match prev with
       | some p => formatDeltaInt (latest.Value - p.Value)
       | none => "")
  { value := pair.1, delta := pair.2, trend := latest.Trend,
    timestamp :=
      match latest.WT with
      | some ms => ms
      | none => now }

/-- Result of a glucose fetch run: the returned value, the final module state,
how many data-endpoint and login calls were made, and whether the run consumed
all its fuel. The JS function re-enters itself on a 500 status with no bound of
its own, so the embedding is fuel-indexed and `fuelExhausted` marks a run that
never returned. -/
structure GlucoseFetchOut where
  result : Option GlucoseResult
  st : GlucoseState
  dataCallCount : Nat
  loginCount : Nat
  fuelExhausted : Bool
deriving Repr, DecidableEq

/-- `fetchGlucose()` in app-side/index.js. `k` indexes the data-endpoint
outcomes of the environment, `dc` and `lc` accumulate the call counters.
Stepping through the source: a fresh cache entry is returned at once; missing
credentials return null; with no session a login is attempted, a login throw
being caught (clearing the session) and returning null; the data endpoint is
then called, where a throw or a 200-body parse throw is caught (clearing the
session, cache untouched), a 500 status triggers a fresh login and a full
recursive re-entry, any other non-200 status and an empty readings list return
null without touching the session, and a successful read replaces the cache and
returns the new value. -/
def fetchGlucoseAux : Nat → GlucoseEnv → GlucoseState → Int → Nat → Nat → Nat →
    GlucoseFetchOut
  | 0, _, st, _, _, dc, lc =>
    { result := none, st := st, dataCallCount := dc, loginCount := lc,
      fuelExhausted := true }
  | fuel + 1, env, st, now, k, dc, lc =>
    if st.cachedGlucose.isSome ∧ now - st.lastGlucoseFetch < GLUCOSE_CACHE_MS
    then
      { result := st.cachedGlucose, st := st, dataCallCount := dc,
        loginCount := lc, fuelExhausted := false }
    else if env.username = "" ∨ env.password = "" then
      { result := none, st := st, dataCallCount := dc, loginCount := lc,
        fuelExhausted := false }
    else
      let sess : Option GlucoseState × Nat :=
        match st.sessionId with
        | none =>
          match env.login with
          | none => (none, lc + 1)
          | some sid => (some { st with sessionId := some sid }, lc + 1)
        | some _ => (some st, lc)
      match sess with
      | (none, lc1) =>
        { result := none, st := { st with sessionId := none },
          dataCallCount := dc, loginCount := lc1, fuelExhausted := false }
      | (some st1, lc1) =>
        match env.dataCalls k with
        | .netThrow =>
          { result := none, st := { st1 with sessionId := none },
            dataCallCount := dc + 1, loginCount := lc1, fuelExhausted := false }
        | .resp 500 _ =>
          match env.login with
          | none =>
            { result := none, st := { st1 with sessionId := none },
              dataCallCount := dc + 1, loginCount := lc1 + 1,
              fuelExhausted := false }
          | some sid2 =>
            fetchGlucoseAux fuel env { st1 with sessionId := some sid2 } now
              (k + 1) (dc + 1) (lc1 + 1)
        | .resp status body =>
          if status ≠ 200 then
            { result := none, st := st1, dataCallCount := dc + 1,
              loginCount := lc1, fuelExhausted := false }
          else
            match body with
            | none =>
              { result := none, st := { st1 with sessionId := none },
                dataCallCount := dc + 1, loginCount := lc1,
                fuelExhausted := false }
            | some [] =>
              { result := none, st := st1, dataCallCount := dc + 1,
                loginCount := lc1, fuelExhausted := false }
            | some (latest :: rest) =>
              let r := glucoseSuccess env.units now latest rest.head?
              { result := some r,
                st :=
                  { st1 with
                    cachedGlucose := some r, lastGlucoseFetch := now },
                dataCallCount := dc + 1, loginCount := lc1,
                fuelExhausted := false }

/-- Entry point of a glucose fetch with the counters zeroed. -/
def fetchGlucose (fuel : Nat) (env : GlucoseEnv) (st : GlucoseState)
    (now : Int) : GlucoseFetchOut :=
  fetchGlucoseAux fuel env st now 0 0 0

/-! ## Request handler and snapshot assembly (app-side/index.js,
`AppSideService` request listener) -/

/-- A JSON value, for stating which keys the assembled response object has. -/
inductive JVal where
  | jnull : JVal
  | jstr (s : String) : JVal
  | jnum (n : Int) : JVal
  | jbool (b : Bool) : JVal
  | jobj (fields : List (String × JVal)) : JVal
deriving Repr

/-- Key lookup in a JSON object value. -/
def jlookup (k : String) : JVal → Option JVal
  | .jobj fields => fields.lookup k
  | _ => none

/-- Key list of a JSON object value. -/
def jkeys : JVal → List String
  | .jobj fields => fields.map Prod.fst
  | _ => []

/-- The glucose member of the response data object. -/
def glucoseJ (g : GlucoseResult) (timeDelta : Option Int) : JVal :=
  .jobj [("value", .jstr g.value), ("delta", .jstr g.delta),
         ("timeDelta",
           match timeDelta with
           | some n => .jnum n
           | none => .jnull)]

/-- The weather member of the response data object. -/
def weatherJ (w : WeatherResult) : JVal :=
  .jobj [("temp", .jnum w.temp), ("wind", .jnum w.windSpeed),
         ("windUnit", .jstr w.windUnit), ("hasRain", .jbool w.hasRain)]

/-- The astronomy member of the response data object (the cached astronomy
result is sent as is). -/
def astronomyJ (a : AstroResult) : JVal :=
  .jobj [("sunTime", .jstr a.sunTime), ("sunIsRising", .jbool a.sunIsRising),
         ("moonTime", .jstr a.moonTime),
         ("moonIsRising", .jbool a.moonIsRising),
         ("moonPhase", .jnum a.moonPhase)]

/-- The minutes-since-reading value: computed only when the glucose result is
present with a truthy (nonzero) timestamp. -/
def timeDeltaOf (now : Int) (g : GlucoseResult) : Option Int :=
  if g.timestamp ≠ 0 then some (jsRound (((now - g.timestamp : Int) : Rat) / 60000))
  else none

/-- The body of the `messageBuilder.on` request listener in app-side/index.js,
as a function of the decoded request action and the three source results: a
fetchAll or fetchGlucose action assembles the snapshot data object with a null
member for every absent source, and any other action yields the unknown-action
error object. -/
def handleRequest (action : Option String) (now : Int)
    (glucose : Option GlucoseResult) (weather : Option WeatherResult)
    (astronomy : Option AstroResult) : JVal :=
  if action = some "fetchAll" ∨ action = some "fetchGlucose" then
    .jobj [("type", .jstr "all"),
           ("glucose",
             match glucose with
             | some g => glucoseJ g (timeDeltaOf now g)
             | none => .jnull),
           ("weather",
             match weather with
             | some w => weatherJ w
             | none => .jnull),
           ("astronomy",
             match astronomy with
             | some a => astronomyJ a
             | none => .jnull)]
  else .jobj [("error", .jstr "unknown action")]

/-! ## Sample inputs used by concrete witnesses and counterexamples -/

/-- A glucose environment in which login always succeeds and every data call
reports HTTP 500. -/
def env500 : GlucoseEnv :=
  { username := "u", password := "p", units := "mgdl", login := some "sid",
    dataCalls := fun _ => .resp 500 none }

/-- A glucose environment in which login succeeds and every data call throws. -/
def envNetThrow : GlucoseEnv :=
  { username := "u", password := "p", units := "mgdl", login := some "sid",
    dataCalls := fun _ => .netThrow }

/-- A glucose environment in which the single data call returns HTTP 404. -/
def env404 : GlucoseEnv :=
  { username := "u", password := "p", units := "mgdl", login := some "sid",
    dataCalls := fun _ => .resp 404 none }

/-- A sample cached glucose result. -/
def g0 : GlucoseResult :=
  { value := "142", delta := "+4", trend := some "Flat", timestamp := 60000 }

/-- A sample weather result. -/
def w0 : WeatherResult :=
  { temp := 21, windSpeed := 4, windUnit := "m/s", description := "Rain",
    hasRain := true }

/-- A sample astronomy result. -/
def a0 : AstroResult :=
  { sunTime := "18:02", sunIsRising := false, moonTime := "23:10",
    moonIsRising := true, moonPhase := 4 }

/-- A sample display with every zone populated. -/
def d0 : Display :=
  { glucose := "120", glucoseCol := C_GREEN, delta := "+5", timeDelta := "3m",
    temp := "21", wind := "4", sunTime := "07:14", moonTime := "22:33",
    moonPhaseSrc := "images/fullmoon.png",
    garbageSrc := "images/organicbag.png", garbageVisible := true }

/-- A snapshot bundle whose glucose section is present but empty. -/
def emptyGlucoseBundle : AllMsg :=
  { glucose := some { value := none, delta := none, timeDelta := none },
    weather := none, astronomy := none, settings := none }

/-- A full snapshot bundle. -/
def fullBundle : AllMsg :=
  { glucose := some { value := some "142", delta := some "+4",
                      timeDelta := some 3 },
    weather := some { temp := some 21, tempUnit := none, wind := some 4,
                      windUnit := some "m/s" },
    astronomy := some { sunTime := some "18:02", moonTime := some "23:10",
                        moonPhase := some 4 },
    settings := none }

/-- A bundle with empty weather and astronomy sections and no glucose or
settings section. -/
def c8Leafy : AllMsg :=
  { glucose := none,
    weather := some { temp := none, tempUnit := none, wind := none,
                      windUnit := none },
    astronomy := some { sunTime := none, moonTime := none, moonPhase := none },
    settings := none }

/-- A decoded response message carrying the full bundle. -/
def respMsg : InMsg :=
  { type := some "all", data := some fullBundle,
    self := { glucose := none, weather := none, astronomy := none,
              settings := none },
    selfGlucose := { value := none, delta := none, timeDelta := none },
    selfWeather := { temp := none, tempUnit := none, wind := none,
                     windUnit := none },
    selfAstro := { sunTime := none, moonTime := none, moonPhase := none },
    selfSettings := { garbageBag := none } }

/-- The astronomy upstream body of the moon-rule example: moonset lexically
before moonrise. -/
def c6Data : AstroData :=
  { sunrise := "07:14", sunset := "18:02", moonrise := "23:10",
    moonset := "06:45", moonPhaseLabel := some "Full Moon" }

/-- The astronomy environment of the moon-rule example, at wall time 20:00. -/
def c6Env : AstroEnv :=
  { ipgeoApiKey := "k", http := .resp 200 (some c6Data), nowStr := "20:00" }

/-- An empty astronomy cache. -/
def c6St : AstroState := { cachedAstro := none, lastAstroFetch := 0 }

/-- The result the moon-rule example computes. -/
def c6Res : AstroResult :=
  { sunTime := "18:02", sunIsRising := false, moonTime := "23:10",
    moonIsRising := true, moonPhase := 4 }

/-- A weather environment whose data call would return an unparseable body. -/
def c9WEnv : WeatherEnv :=
  { owmApiKey := "key", weatherUnits := "metric", http := .resp 200 none }

/-- An astronomy environment whose data call would throw. -/
def c9AEnv : AstroEnv :=
  { ipgeoApiKey := "key", http := .netThrow, nowStr := "12:00" }

/-- A weather environment whose data call returns HTTP 503. -/
def c3WEnv : WeatherEnv :=
  { owmApiKey := "key", weatherUnits := "metric", http := .resp 503 none }

/-! ## Frame helper lemmas for the display applicators -/

theorem applyGlucose_shape (d : Display) (m : Option GlucoseMsg) :
    ∃ g c de td, applyGlucose d m =
      { d with glucose := g, glucoseCol := c, delta := de, timeDelta := td } := by
  unfold applyGlucose
  rcases m with _ | msg
  · exact ⟨d.glucose, d.glucoseCol, d.delta, d.timeDelta, rfl⟩
  · exact ⟨_, _, _, _, rfl⟩

theorem applyWeather_shape (d : Display) (m : Option WeatherMsg) :
    ∃ t w, applyWeather d m = { d with temp := t, wind := w } := by
  unfold applyWeather
  rcases m with _ | msg
  · exact ⟨d.temp, d.wind, rfl⟩
  · rcases msg with ⟨wt, wtu, ww, wwu⟩
    cases wt <;> cases ww <;> exact ⟨_, _, rfl⟩

theorem applyAstronomy_shape (d : Display) (m : Option AstroMsg) :
    ∃ su mo mp, applyAstronomy d m =
      { d with sunTime := su, moonTime := mo, moonPhaseSrc := mp } := by
  rcases m with _ | ⟨ms, mm, mp⟩
  · exact ⟨d.sunTime, d.moonTime, d.moonPhaseSrc, rfl⟩
  · rcases ms with _ | s <;> rcases mm with _ | s2 <;> rcases mp with _ | p <;>
      unfold applyAstronomy <;> dsimp only <;> (try split_ifs) <;>
      exact ⟨_, _, _, rfl⟩

theorem applySettings_shape (d : Display) (m : Option SettingsMsg) :
    ∃ gs gv, applySettings d m =
      { d with garbageSrc := gs, garbageVisible := gv } := by
  rcases m with _ | ⟨gb⟩
  · exact ⟨d.garbageSrc, d.garbageVisible, rfl⟩
  · rcases gb with _ | k
    · exact ⟨d.garbageSrc, false, rfl⟩
    · rcases h : BAG_IMGS k with _ | src
      · refine ⟨d.garbageSrc, false, ?_⟩
        simp [applySettings, h]
      · refine ⟨src, true, ?_⟩
        simp [applySettings, h]

theorem applySettings_keeps_glucose (d : Display) (m : Option SettingsMsg) :
    (applySettings d m).glucose = d.glucose := by
  obtain ⟨x1, x2, h⟩ := applySettings_shape d m
  rw [h]

theorem applySettings_keeps_glucoseCol (d : Display) (m : Option SettingsMsg) :
    (applySettings d m).glucoseCol = d.glucoseCol := by
  obtain ⟨x1, x2, h⟩ := applySettings_shape d m
  rw [h]

theorem applySettings_keeps_delta (d : Display) (m : Option SettingsMsg) :
    (applySettings d m).delta = d.delta := by
  obtain ⟨x1, x2, h⟩ := applySettings_shape d m
  rw [h]

theorem applySettings_keeps_timeDelta (d : Display) (m : Option SettingsMsg) :
    (applySettings d m).timeDelta = d.timeDelta := by
  obtain ⟨x1, x2, h⟩ := applySettings_shape d m
  rw [h]

theorem applySettings_keeps_temp (d : Display) (m : Option SettingsMsg) :
    (applySettings d m).temp = d.temp := by
  obtain ⟨x1, x2, h⟩ := applySettings_shape d m
  rw [h]

theorem applySettings_keeps_wind (d : Display) (m : Option SettingsMsg) :
    (applySettings d m).wind = d.wind := by
  obtain ⟨x1, x2, h⟩ := applySettings_shape d m
  rw [h]

theorem applySettings_keeps_sunTime (d : Display) (m : Option SettingsMsg) :
    (applySettings d m).sunTime = d.sunTime := by
  obtain ⟨x1, x2, h⟩ := applySettings_shape d m
  rw [h]

theorem applySettings_keeps_moonTime (d : Display) (m : Option SettingsMsg) :
    (applySettings d m).moonTime = d.moonTime := by
  obtain ⟨x1, x2, h⟩ := applySettings_shape d m
  rw [h]

theorem applySettings_keeps_moonPhaseSrc (d : Display) (m : Option SettingsMsg) :
    (applySettings d m).moonPhaseSrc = d.moonPhaseSrc := by
  obtain ⟨x1, x2, h⟩ := applySettings_shape d m
  rw [h]

theorem applyAstronomy_keeps_glucose (d : Display) (m : Option AstroMsg) :
    (applyAstronomy d m).glucose = d.glucose := by
  obtain ⟨x1, x2, x3, h⟩ := applyAstronomy_shape d m
  rw [h]

theorem applyAstronomy_keeps_glucoseCol (d : Display) (m : Option AstroMsg) :
    (applyAstronomy d m).glucoseCol = d.glucoseCol := by
  obtain ⟨x1, x2, x3, h⟩ := applyAstronomy_shape d m
  rw [h]

theorem applyAstronomy_keeps_delta (d : Display) (m : Option AstroMsg) :
    (applyAstronomy d m).delta = d.delta := by
  obtain ⟨x1, x2, x3, h⟩ := applyAstronomy_shape d m
  rw [h]

theorem applyAstronomy_keeps_timeDelta (d : Display) (m : Option AstroMsg) :
    (applyAstronomy d m).timeDelta = d.timeDelta := by
  obtain ⟨x1, x2, x3, h⟩ := applyAstronomy_shape d m
  rw [h]

theorem applyAstronomy_keeps_temp (d : Display) (m : Option AstroMsg) :
    (applyAstronomy d m).temp = d.temp := by
  obtain ⟨x1, x2, x3, h⟩ := applyAstronomy_shape d m
  rw [h]

theorem applyAstronomy_keeps_wind (d : Display) (m : Option AstroMsg) :
    (applyAstronomy d m).wind = d.wind := by
  obtain ⟨x1, x2, x3, h⟩ := applyAstronomy_shape d m
  rw [h]

theorem applyAstronomy_keeps_garbageSrc (d : Display) (m : Option AstroMsg) :
    (applyAstronomy d m).garbageSrc = d.garbageSrc := by
  obtain ⟨x1, x2, x3, h⟩ := applyAstronomy_shape d m
  rw [h]

theorem applyAstronomy_keeps_garbageVisible (d : Display) (m : Option AstroMsg) :
    (applyAstronomy d m).garbageVisible = d.garbageVisible := by
  obtain ⟨x1, x2, x3, h⟩ := applyAstronomy_shape d m
  rw [h]

theorem applyWeather_keeps_glucose (d : Display) (m : Option WeatherMsg) :
    (applyWeather d m).glucose = d.glucose := by
  obtain ⟨x1, x2, h⟩ := applyWeather_shape d m
  rw [h]

theorem applyWeather_keeps_glucoseCol (d : Display) (m : Option WeatherMsg) :
    (applyWeather d m).glucoseCol = d.glucoseCol := by
  obtain ⟨x1, x2, h⟩ := applyWeather_shape d m
  rw [h]

theorem applyWeather_keeps_delta (d : Display) (m : Option WeatherMsg) :
    (applyWeather d m).delta = d.delta := by
  obtain ⟨x1, x2, h⟩ := applyWeather_shape d m
  rw [h]

theorem applyWeather_keeps_timeDelta (d : Display) (m : Option WeatherMsg) :
    (applyWeather d m).timeDelta = d.timeDelta := by
  obtain ⟨x1, x2, h⟩ := applyWeather_shape d m
  rw [h]

theorem applyWeather_keeps_sunTime (d : Display) (m : Option WeatherMsg) :
    (applyWeather d m).sunTime = d.sunTime := by
  obtain ⟨x1, x2, h⟩ := applyWeather_shape d m
  rw [h]

theorem applyWeather_keeps_moonTime (d : Display) (m : Option WeatherMsg) :
    (applyWeather d m).moonTime = d.moonTime := by
  obtain ⟨x1, x2, h⟩ := applyWeather_shape d m
  rw [h]

theorem applyWeather_keeps_moonPhaseSrc (d : Display) (m : Option WeatherMsg) :
    (applyWeather d m).moonPhaseSrc = d.moonPhaseSrc := by
  obtain ⟨x1, x2, h⟩ := applyWeather_shape d m
  rw [h]

theorem applyWeather_keeps_garbageSrc (d : Display) (m : Option WeatherMsg) :
    (applyWeather d m).garbageSrc = d.garbageSrc := by
  obtain ⟨x1, x2, h⟩ := applyWeather_shape d m
  rw [h]

theorem applyWeather_keeps_garbageVisible (d : Display) (m : Option WeatherMsg) :
    (applyWeather d m).garbageVisible = d.garbageVisible := by
  obtain ⟨x1, x2, h⟩ := applyWeather_shape d m
  rw [h]

theorem applyGlucose_keeps_temp (d : Display) (m : Option GlucoseMsg) :
    (applyGlucose d m).temp = d.temp := by
  obtain ⟨x1, x2, x3, x4, h⟩ := applyGlucose_shape d m
  rw [h]

theorem applyGlucose_keeps_wind (d : Display) (m : Option GlucoseMsg) :
    (applyGlucose d m).wind = d.wind := by
  obtain ⟨x1, x2, x3, x4, h⟩ := applyGlucose_shape d m
  rw [h]

theorem applyGlucose_keeps_sunTime (d : Display) (m : Option GlucoseMsg) :
    (applyGlucose d m).sunTime = d.sunTime := by
  obtain ⟨x1, x2, x3, x4, h⟩ := applyGlucose_shape d m
  rw [h]

theorem applyGlucose_keeps_moonTime (d : Display) (m : Option GlucoseMsg) :
    (applyGlucose d m).moonTime = d.moonTime := by
  obtain ⟨x1, x2, x3, x4, h⟩ := applyGlucose_shape d m
  rw [h]

theorem applyGlucose_keeps_moonPhaseSrc (d : Display) (m : Option GlucoseMsg) :
    (applyGlucose d m).moonPhaseSrc = d.moonPhaseSrc := by
  obtain ⟨x1, x2, x3, x4, h⟩ := applyGlucose_shape d m
  rw [h]

theorem applyGlucose_keeps_garbageSrc (d : Display) (m : Option GlucoseMsg) :
    (applyGlucose d m).garbageSrc = d.garbageSrc := by
  obtain ⟨x1, x2, x3, x4, h⟩ := applyGlucose_shape d m
  rw [h]

theorem applyGlucose_keeps_garbageVisible (d : Display) (m : Option GlucoseMsg) :
    (applyGlucose d m).garbageVisible = d.garbageVisible := by
  obtain ⟨x1, x2, x3, x4, h⟩ := applyGlucose_shape d m
  rw [h]


theorem applyWeather_temp_none (d : Display) (msg : WeatherMsg)
    (h : msg.temp = none) : (applyWeather d (some msg)).temp = d.temp := by
  rcases msg with ⟨wt, wtu, ww, wwu⟩
  simp only at h
  subst h
  cases ww <;> simp [applyWeather]

theorem applyWeather_wind_none (d : Display) (msg : WeatherMsg)
    (h : msg.wind = none) : (applyWeather d (some msg)).wind = d.wind := by
  rcases msg with ⟨wt, wtu, ww, wwu⟩
  simp only at h
  subst h
  cases wt <;> simp [applyWeather]

theorem applyAstronomy_sunTime_none (d : Display) (msg : AstroMsg)
    (h : msg.sunTime = none) :
    (applyAstronomy d (some msg)).sunTime = d.sunTime := by
  rcases msg with ⟨ms, mm, mp⟩
  simp only at h
  subst h
  rcases mm with _ | s2 <;> rcases mp with _ | p <;>
    simp [applyAstronomy] <;> split_ifs <;> simp

theorem applyAstronomy_moonTime_none (d : Display) (msg : AstroMsg)
    (h : msg.moonTime = none) :
    (applyAstronomy d (some msg)).moonTime = d.moonTime := by
  rcases msg with ⟨ms, mm, mp⟩
  simp only at h
  subst h
  rcases ms with _ | s <;> rcases mp with _ | p <;>
    simp [applyAstronomy] <;> split_ifs <;> simp

theorem applyAstronomy_moonPhase_none (d : Display) (msg : AstroMsg)
    (h : msg.moonPhase = none) :
    (applyAstronomy d (some msg)).moonPhaseSrc = d.moonPhaseSrc := by
  rcases msg with ⟨ms, mm, mp⟩
  simp only at h
  subst h
  rcases ms with _ | s <;> rcases mm with _ | s2 <;>
    simp [applyAstronomy] <;> split_ifs <;> simp


/-! ## Claim theorems -/

/-- C1: the wire round trip fails on the client itself. On a concrete envelope
the watch client assembles with `_buildPkt`/`_buildInner` (message kind 0x4,
channel id 5, app id 7, trace id 42, payload kind byte 0x02, 7-byte UTF-8 JSON
payload), its own inbound parser reproduces the kind, trace id and payload, but
reads the channel id from the constant-20 header slot at offset 4 instead of
offset 6, reads the payload kind from the low byte of the declared data length
at offset 36 instead of the kind byte at offset 40, and never reads the app id:
the parse yields channel id 20 and payload kind 7 for an envelope built with
channel id 5 and payload kind 2. -/
theorem c1_wire_roundtrip_failure :
    parseInbound (buildPkt 4 5 7 (buildInner 42 7 c1Payload 2 1001 123456)) =
      some { outerType := 4, port2 := 20, traceId := 42, totalLen := 1,
             payLen := 7, payType := 7, payload := c1Payload } ∧
    (20 : Nat) ≠ 5 ∧ (7 : Nat) ≠ 2 := by decide

/-- C2: the code places no bound on the auth retry. In an environment where
login always succeeds and every data call reports HTTP 500 (the upstream
authorization-failure status), `fetchGlucose` re-logins and recursively
re-enters itself on every attempt: for every fuel bound, from an empty cache
and any starting session, the run exhausts its fuel without ever returning.
The claim instead requires exactly one re-login-and-retry followed by an
absent glucose field, and the comment beside the 500 branch of the source
itself says the re-authentication happens once. -/
theorem c2_auth_retry_unbounded :
    ∀ (fuel : Nat) (sid : Option String) (k dc lc : Nat),
      (fetchGlucoseAux fuel env500 ⟨sid, none, 0⟩ 0 k dc lc).fuelExhausted =
        true := by
  intro fuel
  induction fuel with
  | zero => intro sid k dc lc; rfl
  | succ n ih =>
    intro sid k dc lc
    cases sid <;> simp [fetchGlucoseAux, env500, GLUCOSE_CACHE_MS] <;>
      exact ih _ _ _ _

/-- C4: a payload-type 0x02 response is applied to watch state only when its
trace id is pending. When the trace id is pending, it is removed from the
pending table, every other trace id keeps its pending status, and the display
becomes the snapshot application exactly when the message carries a data
member; when the trace id is not pending, the whole watch state, pending table
included, is unchanged. -/
theorem c4_response_correlation (st : WatchState) (tid : Nat) (msg : InMsg) :
    (st.pending.contains tid = true →
      ((onDataPacket st 2 tid (some msg)).pending.contains tid = false ∧
       (∀ t, t ≠ tid →
         (onDataPacket st 2 tid (some msg)).pending.contains t =
           st.pending.contains t) ∧
       (onDataPacket st 2 tid (some msg)).disp =
         (match msg.data with
          | some b => applyAll st.disp b
          | none => st.disp))) ∧
    (st.pending.contains tid = false →
      onDataPacket st 2 tid (some msg) = st) := by
  constructor
  · intro h
    have h2 : tid ∈ st.pending := by simpa using h
    refine ⟨?_, ?_, ?_⟩
    · simp [onDataPacket, h2, List.mem_filter]
    · intro t ht
      simp [onDataPacket, h2, List.mem_filter, ht]
    · simp [onDataPacket, h2]
  · intro h
    have h2 : tid ∉ st.pending := by simpa using h
    simp [onDataPacket, h2]

/-- C4 witness: with trace ids 42 and 7 pending, a response for trace id 42 is
applied and unpends 42 while 7 stays pending; a response for trace id 99 leaves
the state untouched. -/
theorem c4_response_correlation_witness :
    ((onDataPacket ⟨[42, 7], d0⟩ 2 42 (some respMsg)).pending.contains 42 =
       false ∧
     (onDataPacket ⟨[42, 7], d0⟩ 2 42 (some respMsg)).pending.contains 7 =
       true ∧
     onDataPacket ⟨[42, 7], d0⟩ 2 99 (some respMsg) = ⟨[42, 7], d0⟩) := by
  have h1 := c4_response_correlation ⟨[42, 7], d0⟩ 42 respMsg
  have h2 := c4_response_correlation ⟨[42, 7], d0⟩ 99 respMsg
  refine ⟨(h1.1 (by decide)).1, ?_, h2.2 (by decide)⟩
  have h3 := (h1.1 (by decide)).2.1 7 (by decide)
  simpa using h3

/-- C8 counterexample: the claim fails at the leaf level. Applying a snapshot
whose glucose section is present but carries no value, delta or timeDelta
resets the glucose display from 120 to the placeholder, and the delta and
age displays to empty, even though those snapshot fields are absent. -/
theorem c8_counterexample :
    (applyAll d0 emptyGlucoseBundle).glucose = "---" ∧
    (applyAll d0 emptyGlucoseBundle).delta = "" ∧
    (applyAll d0 emptyGlucoseBundle).timeDelta = "" ∧
    d0.glucose = "120" ∧ d0.delta = "+5" ∧ d0.timeDelta = "3m" ∧
    emptyGlucoseBundle.glucose =
      some { value := none, delta := none, timeDelta := none } := by decide

/-- C8 amended: the frame property holds at the granularity of snapshot
sections, and inside the weather and astronomy sections also at the leaf
level: a display zone whose top-level section is absent is left unchanged, and
an absent temp, wind, sunTime, moonTime or moonPhase leaf inside a present
weather or astronomy section leaves its display unchanged. (Only the leaves of
a present glucose section reset their displays to placeholders, per the
counterexample.) -/
theorem c8_partial_apply_frame (d : Display) (m : AllMsg) :
    (m.glucose = none →
      (applyAll d m).glucose = d.glucose ∧
      (applyAll d m).glucoseCol = d.glucoseCol ∧
      (applyAll d m).delta = d.delta ∧
      (applyAll d m).timeDelta = d.timeDelta) ∧
    (m.weather = none →
      (applyAll d m).temp = d.temp ∧ (applyAll d m).wind = d.wind) ∧
    (m.astronomy = none →
      (applyAll d m).sunTime = d.sunTime ∧
      (applyAll d m).moonTime = d.moonTime ∧
      (applyAll d m).moonPhaseSrc = d.moonPhaseSrc) ∧
    (m.settings = none →
      (applyAll d m).garbageSrc = d.garbageSrc ∧
      (applyAll d m).garbageVisible = d.garbageVisible) ∧
    (∀ w, m.weather = some w → w.temp = none →
      (applyAll d m).temp = d.temp) ∧
    (∀ w, m.weather = some w → w.wind = none →
      (applyAll d m).wind = d.wind) ∧
    (∀ a, m.astronomy = some a → a.sunTime = none →
      (applyAll d m).sunTime = d.sunTime) ∧
    (∀ a, m.astronomy = some a → a.moonTime = none →
      (applyAll d m).moonTime = d.moonTime) ∧
    (∀ a, m.astronomy = some a → a.moonPhase = none →
      (applyAll d m).moonPhaseSrc = d.moonPhaseSrc) := by
  refine ⟨?_, ?_, ?_, ?_, ?_, ?_, ?_, ?_, ?_⟩
  · intro h
    simp [applyAll, h, applyGlucose, applySettings_keeps_glucose,
      applySettings_keeps_glucoseCol, applySettings_keeps_delta,
      applySettings_keeps_timeDelta, applyAstronomy_keeps_glucose,
      applyAstronomy_keeps_glucoseCol, applyAstronomy_keeps_delta,
      applyAstronomy_keeps_timeDelta, applyWeather_keeps_glucose,
      applyWeather_keeps_glucoseCol, applyWeather_keeps_delta,
      applyWeather_keeps_timeDelta]
  · intro h
    simp [applyAll, h, applyWeather, applySettings_keeps_temp,
      applySettings_keeps_wind, applyAstronomy_keeps_temp,
      applyAstronomy_keeps_wind, applyGlucose_keeps_temp,
      applyGlucose_keeps_wind]
  · intro h
    simp [applyAll, h, applyAstronomy, applySettings_keeps_sunTime,
      applySettings_keeps_moonTime, applySettings_keeps_moonPhaseSrc,
      applyWeather_keeps_sunTime, applyWeather_keeps_moonTime,
      applyWeather_keeps_moonPhaseSrc, applyGlucose_keeps_sunTime,
      applyGlucose_keeps_moonTime, applyGlucose_keeps_moonPhaseSrc]
  · intro h
    simp [applyAll, h, applySettings, applyAstronomy_keeps_garbageSrc,
      applyAstronomy_keeps_garbageVisible, applyWeather_keeps_garbageSrc,
      applyWeather_keeps_garbageVisible, applyGlucose_keeps_garbageSrc,
      applyGlucose_keeps_garbageVisible]
  · intro w hw ht
    simp only [applyAll, hw, applySettings_keeps_temp,
      applyAstronomy_keeps_temp]
    rw [applyWeather_temp_none _ _ ht]
    exact applyGlucose_keeps_temp d m.glucose
  · intro w hw hwd
    simp only [applyAll, hw, applySettings_keeps_wind,
      applyAstronomy_keeps_wind]
    rw [applyWeather_wind_none _ _ hwd]
    exact applyGlucose_keeps_wind d m.glucose
  · intro a ha hs
    simp only [applyAll, ha, applySettings_keeps_sunTime]
    rw [applyAstronomy_sunTime_none _ _ hs]
    simp only [applyWeather_keeps_sunTime]
    exact applyGlucose_keeps_sunTime d m.glucose
  · intro a ha hm
    simp only [applyAll, ha, applySettings_keeps_moonTime]
    rw [applyAstronomy_moonTime_none _ _ hm]
    simp only [applyWeather_keeps_moonTime]
    exact applyGlucose_keeps_moonTime d m.glucose
  · intro a ha hp
    simp only [applyAll, ha, applySettings_keeps_moonPhaseSrc]
    rw [applyAstronomy_moonPhase_none _ _ hp]
    simp only [applyWeather_keeps_moonPhaseSrc]
    exact applyGlucose_keeps_moonPhaseSrc d m.glucose

/-- C8 witness: on the populated sample display, a bundle with no glucose or
settings section and all-empty weather and astronomy sections leaves every
exercised display field unchanged. -/
theorem c8_partial_apply_frame_witness :
    (applyAll d0 c8Leafy).glucose = d0.glucose ∧
    (applyAll d0 c8Leafy).temp = d0.temp ∧
    (applyAll d0 c8Leafy).wind = d0.wind ∧
    (applyAll d0 c8Leafy).sunTime = d0.sunTime ∧
    (applyAll d0 c8Leafy).moonTime = d0.moonTime ∧
    (applyAll d0 c8Leafy).moonPhaseSrc = d0.moonPhaseSrc ∧
    (applyAll d0 c8Leafy).garbageSrc = d0.garbageSrc := by
  have h := c8_partial_apply_frame d0 c8Leafy
  exact ⟨(h.1 rfl).1,
         h.2.2.2.2.1 _ rfl rfl,
         h.2.2.2.2.2.1 _ rfl rfl,
         h.2.2.2.2.2.2.1 _ rfl rfl,
         h.2.2.2.2.2.2.2.1 _ rfl rfl,
         h.2.2.2.2.2.2.2.2 _ rfl rfl,
         (h.2.2.2.1 rfl).1⟩


/-- Helper: the data-endpoint call counter of a glucose fetch never goes below
the accumulator it starts from. -/
theorem fetchGlucoseAux_dc_le (fuel : Nat) :
    ∀ (env : GlucoseEnv) (st : GlucoseState) (now : Int) (k dc lc : Nat),
      dc ≤ (fetchGlucoseAux fuel env st now k dc lc).dataCallCount := by
  induction fuel with
  | zero => intro env st now k dc lc; exact Nat.le_refl _
  | succ n ih =>
    intro env st now k dc lc
    simp only [fetchGlucoseAux]
    repeat' split
    all_goals
      first
        | exact Nat.le_refl _
        | exact Nat.le_succ dc
        | exact le_trans (Nat.le_succ dc) (ih _ _ _ _ _ _)


/-- C5: cache TTL boundary for the glucose source (ttlMs = 300000). With a
cache entry fetched at t0, a fetch at t0 + 299999 returns the cached value
with no upstream data or login call; a fetch at t0 + 300001 (with credentials
configured) reaches the upstream and performs at least one data call; and in
general the fetch is served from the cache with zero upstream calls exactly
when now - t0 < 300000, the strict inequality of the source. -/
theorem c5_cache_ttl (env : GlucoseEnv) (fuel : Nat) (g : GlucoseResult)
    (sid : String) (t0 : Int) :
    ((fetchGlucoseAux (fuel + 1) env ⟨some sid, some g, t0⟩ (t0 + 299999)
        0 0 0).result = some g ∧
     (fetchGlucoseAux (fuel + 1) env ⟨some sid, some g, t0⟩ (t0 + 299999)
        0 0 0).dataCallCount = 0 ∧
     (fetchGlucoseAux (fuel + 1) env ⟨some sid, some g, t0⟩ (t0 + 299999)
        0 0 0).loginCount = 0) ∧
    (env.username ≠ "" → env.password ≠ "" →
      1 ≤ (fetchGlucoseAux (fuel + 1) env ⟨some sid, some g, t0⟩ (t0 + 300001)
        0 0 0).dataCallCount) ∧
    (∀ now : Int,
      ((fetchGlucoseAux (fuel + 1) env ⟨some sid, some g, t0⟩ now
          0 0 0).dataCallCount = 0 ∧
       (fetchGlucoseAux (fuel + 1) env ⟨some sid, some g, t0⟩ now
          0 0 0).result = some g) ↔
      now - t0 < GLUCOSE_CACHE_MS) := by
  have hthen : ∀ now : Int, now - t0 < GLUCOSE_CACHE_MS →
      fetchGlucoseAux (fuel + 1) env ⟨some sid, some g, t0⟩ now 0 0 0 =
        { result := some g, st := ⟨some sid, some g, t0⟩, dataCallCount := 0,
          loginCount := 0, fuelExhausted := false } := by
    intro now hlt
    simp only [fetchGlucoseAux]
    rw [if_pos]
    exact ⟨rfl, hlt⟩
  have hdc : ∀ now : Int, ¬ now - t0 < GLUCOSE_CACHE_MS →
      env.username ≠ "" → env.password ≠ "" →
      1 ≤ (fetchGlucoseAux (fuel + 1) env ⟨some sid, some g, t0⟩ now
        0 0 0).dataCallCount := by
    intro now hge hu hp
    simp only [fetchGlucoseAux]
    rw [if_neg (by exact fun h => hge h.2), if_neg (by simp [hu, hp])]
    repeat' split
    all_goals
      first
        | exact Nat.le_refl _
        | exact fetchGlucoseAux_dc_le _ _ _ _ _ _ _
  refine ⟨?_, ?_, ?_⟩
  · rw [hthen (t0 + 299999) (by simp [GLUCOSE_CACHE_MS])]
    exact ⟨rfl, rfl, rfl⟩
  · intro hu hp
    exact hdc (t0 + 300001) (by simp [GLUCOSE_CACHE_MS]) hu hp
  · intro now
    by_cases hlt : now - t0 < GLUCOSE_CACHE_MS
    · rw [hthen now hlt]
      exact ⟨fun _ => hlt, fun _ => ⟨rfl, rfl⟩⟩
    · constructor
      · intro hcontra
        exfalso
        by_cases hu : env.username = ""
        · have : (fetchGlucoseAux (fuel + 1) env ⟨some sid, some g, t0⟩ now
              0 0 0).result = none := by
            simp only [fetchGlucoseAux]
            rw [if_neg (fun h => hlt h.2), if_pos (Or.inl hu)]
          rw [this] at hcontra
          exact Option.noConfusion hcontra.2
        · by_cases hp : env.password = ""
          · have : (fetchGlucoseAux (fuel + 1) env ⟨some sid, some g, t0⟩ now
                0 0 0).result = none := by
              simp only [fetchGlucoseAux]
              rw [if_neg (fun h => hlt h.2), if_pos (Or.inr hp)]
            rw [this] at hcontra
            exact Option.noConfusion hcontra.2
          · have h1 := hdc now hlt hu hp
            omega
      · intro h
        exact absurd h hlt


/-- C5 witness: the cache boundary evaluated at t0 = 0 against a concrete
environment whose data endpoint would return HTTP 404. -/
theorem c5_cache_ttl_witness :
    (fetchGlucoseAux 1 env404 ⟨some "s", some g0, 0⟩ 299999 0 0 0).result =
      some g0 ∧
    (fetchGlucoseAux 1 env404 ⟨some "s", some g0, 0⟩ 299999 0 0 0).dataCallCount
      = 0 ∧
    (fetchGlucoseAux 1 env404 ⟨some "s", some g0, 0⟩ 299999 0 0 0).loginCount
      = 0 ∧
    1 ≤ (fetchGlucoseAux 1 env404 ⟨some "s", some g0, 0⟩ 300001 0 0
      0).dataCallCount := by
  have h := c5_cache_ttl env404 0 g0 "s" 0
  refine ⟨?_, ?_, ?_, ?_⟩
  · simpa using h.1.1
  · simpa using h.1.2.1
  · simpa using h.1.2.2
  · simpa using h.2.1 (by decide) (by decide)

/-- C3: aggregation resilience. When the weather fetch fails (its HTTP call
throws or returns a non-200 status) it yields null rather than an error, and
the fetchAll response assembled with that null weather still carries the
glucose and astronomy results, has a null weather member, and has no error
member; moreover no combination of absent sources ever produces the error
response. -/
theorem c3_aggregation_resilience (now : Int) (g : GlucoseResult)
    (a : AstroResult) (wenv : WeatherEnv) (wst : WeatherState) (wnow : Int)
    (lat lon : Option Rat)
    (hmiss : ¬(wst.cachedWeather.isSome ∧
      wnow - wst.lastWeatherFetch < WEATHER_CACHE_MS))
    (hfail : wenv.http = .netThrow ∨
      ∃ s b, wenv.http = .resp s b ∧ s ≠ 200) :
    (fetchWeather wenv wst wnow lat lon).1 = none ∧
    (jlookup "weather" (handleRequest (some "fetchAll") now (some g)
        (fetchWeather wenv wst wnow lat lon).1 (some a)) = some JVal.jnull ∧
     jlookup "glucose" (handleRequest (some "fetchAll") now (some g)
        (fetchWeather wenv wst wnow lat lon).1 (some a)) =
       some (glucoseJ g (timeDeltaOf now g)) ∧
     jlookup "astronomy" (handleRequest (some "fetchAll") now (some g)
        (fetchWeather wenv wst wnow lat lon).1 (some a)) =
       some (astronomyJ a) ∧
     jlookup "error" (handleRequest (some "fetchAll") now (some g)
        (fetchWeather wenv wst wnow lat lon).1 (some a)) = none) ∧
    (∀ go wo ao, jlookup "error"
        (handleRequest (some "fetchAll") now go wo ao) = none) := by
  have hw : (fetchWeather wenv wst wnow lat lon).1 = none := by
    simp only [fetchWeather]
    rw [if_neg hmiss]
    by_cases h1 : wenv.owmApiKey = ""
    · simp [h1]
    · by_cases h2 : jsFalsyNum lat = true ∨ jsFalsyNum lon = true
      · simp [h1, h2]
      · rcases hfail with h | ⟨s, b, hsb, hs⟩
        · simp [h1, h2, h]
        · simp [h1, h2, hsb, hs]
  refine ⟨hw, ?_, ?_⟩
  · rw [hw]
    refine ⟨?_, ?_, ?_, ?_⟩ <;> simp [handleRequest, jlookup, List.lookup]
  · intro go wo ao
    cases go <;> cases wo <;> cases ao <;>
      simp [handleRequest, jlookup, List.lookup]

/-- C3 witness: a concrete fetchAll snapshot assembled while the weather
endpoint returns HTTP 503. -/
theorem c3_aggregation_resilience_witness :
    (fetchWeather c3WEnv ⟨none, 0⟩ 0 (some 50) (some 10)).1 = none ∧
    jlookup "weather" (handleRequest (some "fetchAll") 120000 (some g0)
      (fetchWeather c3WEnv ⟨none, 0⟩ 0 (some 50) (some 10)).1 (some a0)) =
      some JVal.jnull ∧
    jlookup "glucose" (handleRequest (some "fetchAll") 120000 (some g0)
      (fetchWeather c3WEnv ⟨none, 0⟩ 0 (some 50) (some 10)).1 (some a0)) =
      some (glucoseJ g0 (timeDeltaOf 120000 g0)) ∧
    jlookup "astronomy" (handleRequest (some "fetchAll") 120000 (some g0)
      (fetchWeather c3WEnv ⟨none, 0⟩ 0 (some 50) (some 10)).1 (some a0)) =
      some (astronomyJ a0) ∧
    jlookup "error" (handleRequest (some "fetchAll") 120000 (some g0)
      (fetchWeather c3WEnv ⟨none, 0⟩ 0 (some 50) (some 10)).1 (some a0)) =
      none := by
  have h := c3_aggregation_resilience 120000 g0 a0 c3WEnv ⟨none, 0⟩ 0
    (some 50) (some 10) (by decide)
    (Or.inr ⟨503, none, rfl, by decide⟩)
  exact ⟨h.1, h.2.1.1, h.2.1.2.1, h.2.1.2.2.1, h.2.1.2.2.2⟩

/-- C6: the moon-rising rule. Any result a successful astronomy fetch
returns has moonIsRising equal to the asymmetric rule exactly as the
specification words it (before moonrise on a lexically normal day, otherwise
before moonrise and after moonset), surfaces moonrise as moonTime exactly when
that rule holds and moonset otherwise, and compares the current time against
sunset only for sunIsRising. -/
theorem c6_moon_rule (env : AstroEnv) (st : AstroState) (now : Int)
    (lat lon : Option Rat) (data : AstroData) (r : AstroResult)
    (hc : ¬(st.cachedAstro.isSome ∧ now - st.lastAstroFetch < ASTRO_CACHE_MS))
    (hhttp : env.http = .resp 200 (some data))
    (hr : (fetchAstronomy env st now lat lon).1 = some r) :
    r.moonIsRising = moonIsRisingSpec data.moonrise data.moonset env.nowStr ∧
    r.moonTime = (if moonIsRisingSpec data.moonrise data.moonset env.nowStr
      then data.moonrise else data.moonset) ∧
    r.sunIsRising = jsStrLt env.nowStr data.sunset := by
  by_cases hg : env.ipgeoApiKey = "" ∨ jsFalsyNum lat = true ∨
      jsFalsyNum lon = true
  · exfalso
    have hnone : (fetchAstronomy env st now lat lon).1 = none := by
      simp only [fetchAstronomy]
      rw [if_neg hc, if_pos hg]
    rw [hnone] at hr
    exact Option.noConfusion hr
  · have heval : (fetchAstronomy env st now lat lon).1 =
        some { sunTime := if jsStrLt env.nowStr data.sunset then data.sunrise
                 else data.sunset,
               sunIsRising := jsStrLt env.nowStr data.sunset,
               moonTime := if (if jsStrLt data.moonrise data.moonset then
                   jsStrLt env.nowStr data.moonrise
                 else jsStrLt env.nowStr data.moonrise &&
                   jsStrLt data.moonset env.nowStr) then data.moonrise
                 else data.moonset,
               moonIsRising := if jsStrLt data.moonrise data.moonset then
                   jsStrLt env.nowStr data.moonrise
                 else jsStrLt env.nowStr data.moonrise &&
                   jsStrLt data.moonset env.nowStr,
               moonPhase :=
                 parseMoonPhase (jsToLower (data.moonPhaseLabel.getD "")) } := by
      simp only [fetchAstronomy]
      rw [if_neg hc, if_neg hg, hhttp]
      rfl
    rw [heval] at hr
    obtain rfl : _ = r := Option.some.inj hr
    refine ⟨rfl, ?_, rfl⟩
    simp only [moonIsRisingSpec]

/-- C6 witness: the claimed concrete instance, moonrise 23:10, moonset
06:45, current time 20:00 gives moonIsRising true and moonTime 23:10. -/
theorem c6_moon_rule_witness :
    (fetchAstronomy c6Env c6St 0 (some 50) (some 10)).1 = some c6Res ∧
    c6Res.moonIsRising = true ∧ c6Res.moonTime = "23:10" ∧
    moonIsRisingSpec "23:10" "06:45" "20:00" = true := by
  have h := c6_moon_rule c6Env c6St 0 (some 50) (some 10) c6Data c6Res
    (by decide) rfl (by decide)
  exact ⟨by decide, h.1.trans (by decide), by decide, by decide⟩

/-- C7: the assembled response object of the request handler has exactly the
keys type, glucose, weather and astronomy, and no schedule, settings or
garbageBag member for any action and any source results: the locally derived
schedule value the specification and the repository documentation describe is
never computed or included by the app-side code. -/
theorem c7_schedule_missing (action : Option String) (now : Int)
    (g : Option GlucoseResult) (w : Option WeatherResult)
    (a : Option AstroResult) :
    jlookup "schedule" (handleRequest action now g w a) = none ∧
    jlookup "settings" (handleRequest action now g w a) = none ∧
    jlookup "garbageBag" (handleRequest action now g w a) = none ∧
    jkeys (handleRequest (some "fetchAll") now g w a) =
      ["type", "glucose", "weather", "astronomy"] := by
  refine ⟨?_, ?_, ?_, ?_⟩ <;>
    · unfold handleRequest
      split_ifs <;> cases g <;> cases w <;> cases a <;>
        simp_all [jlookup, jkeys, List.lookup]

/-- C9 counterexample: the claim as stated fails when a fresh cache entry
exists. The configured latitude parses to exactly 0, yet the weather fetch
returns the cached value rather than null (still without contacting the
upstream). -/
theorem c9_counterexample :
    jsParseFloat "0" = some 0 ∧
    (getLocation "0" "5.5" ⟨none, none⟩).1 = (some 0, some (mkRat 11 2)) ∧
    (fetchWeather c9WEnv ⟨some w0, 0⟩ 1000 (some 0) (some (mkRat 11 2))).1 =
      some w0 ∧
    some w0 ≠ (none : Option WeatherResult) ∧
    (fetchWeather c9WEnv ⟨some w0, 0⟩ 1000 (some 0) (some (mkRat 11 2))).2.2 =
      false := by decide

/-- C9 amended: when no fresh cache entry exists, a configured latitude or
longitude that parses to exactly 0 makes both the weather and the astronomy
fetch return null without contacting their upstreams, because the zero
coordinate is falsy in the guards exactly like a missing one. -/
theorem c9_zero_coordinate (latStr lonStr : String) (lst : LocState)
    (wenv : WeatherEnv) (wst : WeatherState) (aenv : AstroEnv)
    (ast : AstroState) (wnow anow : Int) (la lo : Rat)
    (hla : jsParseFloat latStr = some la) (hlo : jsParseFloat lonStr = some lo)
    (hz : la = 0 ∨ lo = 0)
    (hwmiss : ¬(wst.cachedWeather.isSome ∧
      wnow - wst.lastWeatherFetch < WEATHER_CACHE_MS))
    (hamiss : ¬(ast.cachedAstro.isSome ∧
      anow - ast.lastAstroFetch < ASTRO_CACHE_MS)) :
    (getLocation latStr lonStr lst).1 = (some la, some lo) ∧
    (fetchWeather wenv wst wnow (some la) (some lo)).1 = none ∧
    (fetchWeather wenv wst wnow (some la) (some lo)).2.2 = false ∧
    (fetchAstronomy aenv ast anow (some la) (some lo)).1 = none ∧
    (fetchAstronomy aenv ast anow (some la) (some lo)).2.2 = false := by
  have hfalsy : jsFalsyNum (some la) = true ∨ jsFalsyNum (some lo) = true := by
    rcases hz with h | h <;> [left; right] <;> simp [jsFalsyNum, h]
  have hwresult : fetchWeather wenv wst wnow (some la) (some lo) =
      (none, wst, false) := by
    simp only [fetchWeather]
    rw [if_neg hwmiss]
    by_cases h1 : wenv.owmApiKey = ""
    · simp [h1]
    · rcases hfalsy with h | h <;> simp [h1, h]
  have haresult : fetchAstronomy aenv ast anow (some la) (some lo) =
      (none, ast, false) := by
    simp only [fetchAstronomy]
    rw [if_neg hamiss, if_pos]
    rcases hfalsy with h | h
    · exact Or.inr (Or.inl h)
    · exact Or.inr (Or.inr h)
  refine ⟨?_, ?_, ?_, ?_, ?_⟩
  · simp [getLocation, hla, hlo]
  · rw [hwresult]
  · rw [hwresult]
  · rw [haresult]
  · rw [haresult]

/-- C9 witness: latitude string 0 and longitude string 5.5 with empty
caches. -/
theorem c9_zero_coordinate_witness :
    (getLocation "0" "5.5" ⟨none, none⟩).1 = (some 0, some (mkRat 11 2)) ∧
    (fetchWeather c9WEnv ⟨none, 0⟩ 0 (some 0) (some (mkRat 11 2))).1 = none ∧
    (fetchWeather c9WEnv ⟨none, 0⟩ 0 (some 0) (some (mkRat 11 2))).2.2 = false ∧
    (fetchAstronomy c9AEnv ⟨none, 0⟩ 0 (some 0) (some (mkRat 11 2))).1 = none ∧
    (fetchAstronomy c9AEnv ⟨none, 0⟩ 0 (some 0) (some (mkRat 11 2))).2.2 =
      false := by
  exact c9_zero_coordinate "0" "5.5" ⟨none, none⟩ c9WEnv ⟨none, 0⟩ c9AEnv
    ⟨none, 0⟩ 0 0 0 (mkRat 11 2) (by decide) (by decide) (Or.inl rfl)
    (by decide) (by decide)

/-- C10: the glucose error path. Whenever a step of a glucose fetch throws,
that is when the login call fails while no session is held, or the data call
throws, or its 200 body fails to parse, the fetch returns null, the stored
session id ends up cleared, and the cached glucose value and its fetch
timestamp are exactly those of the starting state. -/
theorem c10_glucose_error_path (fuel : Nat) (env : GlucoseEnv)
    (st : GlucoseState) (now : Int) (k dc lc : Nat)
    (hc : ¬(st.cachedGlucose.isSome ∧
      now - st.lastGlucoseFetch < GLUCOSE_CACHE_MS))
    (hu : env.username ≠ "") (hp : env.password ≠ "")
    (hthrow :
      (st.sessionId = none ∧ env.login = none) ∨
      ((st.sessionId.isSome ∨ env.login.isSome) ∧
        env.dataCalls k = .netThrow) ∨
      ((st.sessionId.isSome ∨ env.login.isSome) ∧
        env.dataCalls k = .resp 200 none)) :
    (fetchGlucoseAux (fuel + 1) env st now k dc lc).result = none ∧
    (fetchGlucoseAux (fuel + 1) env st now k dc lc).st.sessionId = none ∧
    (fetchGlucoseAux (fuel + 1) env st now k dc lc).st.cachedGlucose =
      st.cachedGlucose ∧
    (fetchGlucoseAux (fuel + 1) env st now k dc lc).st.lastGlucoseFetch =
      st.lastGlucoseFetch := by
  simp only [fetchGlucoseAux]
  rw [if_neg hc, if_neg (by simp [hu, hp])]
  rcases hthrow with ⟨hs, hl⟩ | ⟨hsess, hdata⟩ | ⟨hsess, hdata⟩
  · rw [hs, hl]
    exact ⟨rfl, rfl, rfl, rfl⟩
  · rcases hst : st.sessionId with _ | s
    · rcases hlog : env.login with _ | sid
      · simp [hst, hlog] at hsess
      · rw [hdata]
        exact ⟨rfl, rfl, rfl, rfl⟩
    · rw [hdata]
      exact ⟨rfl, rfl, rfl, rfl⟩
  · rcases hst : st.sessionId with _ | s
    · rcases hlog : env.login with _ | sid
      · simp [hst, hlog] at hsess
      · rw [hdata]
        exact ⟨rfl, rfl, rfl, rfl⟩
    · rw [hdata]
      exact ⟨rfl, rfl, rfl, rfl⟩

/-- C10 witness: a throwing data call against a populated, stale cache
clears the session and leaves the cache untouched. -/
theorem c10_glucose_error_path_witness :
    (fetchGlucoseAux 1 envNetThrow ⟨some "s", some g0, 0⟩ 600000 0 0 0).result
      = none ∧
    (fetchGlucoseAux 1 envNetThrow ⟨some "s", some g0, 0⟩ 600000 0 0
      0).st.sessionId = none ∧
    (fetchGlucoseAux 1 envNetThrow ⟨some "s", some g0, 0⟩ 600000 0 0
      0).st.cachedGlucose = some g0 ∧
    (fetchGlucoseAux 1 envNetThrow ⟨some "s", some g0, 0⟩ 600000 0 0
      0).st.lastGlucoseFetch = 0 := by
  have h := c10_glucose_error_path 0 envNetThrow ⟨some "s", some g0, 0⟩
    600000 0 0 0 (by decide) (by decide) (by decide)
    (Or.inr (Or.inl ⟨Or.inl rfl, rfl⟩))
  exact ⟨h.1, h.2.1, h.2.2.1, h.2.2.2⟩

end RatScout
